import Mathlib

/-!
# Verification of the pont tunnel lifecycle manager

Shallow embedding of the tunnel lifecycle core of the `pont` repository:
the two provider adapters (`NgrokService` from `internal/service/ngrok.go`,
`CloudflareService` from the cloudflare service file, and the legacy
reverse-proxy `NgrokService` variant) and the lifecycle `Manager`
(second half of `internal/service/ngrok.go`).

Go maps become association lists, goroutines become explicit pending
processes driven by events, contexts become cancellation flags, and the
opaque provider SDK calls become outcome parameters supplied by the
environment.
-/

namespace Pont

/-! ## Association-list helpers (Go `map[string]T`) -/

def lookupA {α : Type} : List (String × α) → String → Option α
  | [], _ => none
  | (k, v) :: rest, key => if k = key then some v else lookupA rest key

/-- Go map assignment `m[k] = v`: overwrite the entry if present, else add it. -/
def insertA {α : Type} : List (String × α) → String → α → List (String × α)
  | [], key, v => [(key, v)]
  | (k, w) :: rest, key, v =>
      if k = key then (k, v) :: rest else (k, w) :: insertA rest key v

/-- Mutate the entry for `key` in place (a Go write through a map-held pointer). -/
def updateA {α : Type} : List (String × α) → String → (α → α) → List (String × α)
  | [], _, _ => []
  | (k, w) :: rest, key, f =>
      if k = key then (k, f w) :: rest else (k, w) :: updateA rest key f

/-! ## Tunnel configuration (`internal/config/config_db.go`)

`TunnelType` is a Go string type (`type TunnelType string`), so arbitrary
strings are possible values; the two declared constants are `"cloudflare"`
and `"ngrok"`. -/

/-- `strings.HasPrefix` (Go): kernel-computable form of `String.startsWith`. -/
def strHasScheme (s p : String) : Bool := p.data.isPrefixOf s.data

structure TunnelConfig where
  id : String := ""
  name : String := ""
  type : String := ""
  target : String := ""
  enabled : Bool := true
  mcpEnabled : Bool := false
  ngrokAuthtoken : String := ""
  ngrokDomain : String := ""
deriving DecidableEq

/-! ## NgrokService, SDK-agent adapter (`internal/service/ngrok.go`, first half)

The opaque `agent.Forward` call is modelled by a `ConnectOutcome` supplied
by the environment: it either returns a forwarder with a URL, returns an
error (possibly an `ngrok.Error` carrying a code), or fails to return
within the 30-second `time.After` window of the enclosing `select`. -/

structure NgrokService where
  config : TunnelConfig
  publicURL : String := ""
  status : String := "stopped"
  lastError : String := ""
  /-- `ns.cancel` has been invoked on the context created at the top of `Start`. -/
  cancelled : Bool := false
  forwarderSet : Bool := false
deriving DecidableEq

/-- `NewNgrokService` -/
def NewNgrokService (cfg : TunnelConfig) : NgrokService :=
  { config := cfg, status := "stopped" }

inductive ConnectOutcome where
  /-- `agent.Forward` returned a forwarder whose URL is `url`. -/
  | ok (url : String)
  /-- `agent.Forward` returned an error with message `msg`; `code` is the
  `ngrok.Error` code when the error unwraps to one (`""` otherwise). -/
  | provErr (msg code : String)
  /-- the 30-second `time.After` fired before the result channel delivered. -/
  | timeout
deriving DecidableEq

def freeAccountMsg : String :=
  "Free ngrok accounts can only run one tunnel at a time. Please stop other tunnels first."

def httpTimeoutMsg : String :=
  "Ngrok connection timeout. Possible causes: 1) Network issue 2) Invalid authtoken 3) Free account limit: only 1 endpoint allowed, please stop other tunnels first"

def tcpTimeoutMsg : String :=
  "Ngrok TCP connection timeout. Possible causes: 1) Network issue 2) Invalid authtoken 3) Free account limit: only 1 endpoint allowed, please stop other tunnels first"

def tlsTimeoutMsg : String :=
  "Ngrok TLS connection timeout. Possible causes: 1) Network issue 2) Invalid authtoken 3) Free account limit: only 1 endpoint allowed, please stop other tunnels first"

/-- `NgrokService.startHTTP` -/
def NgrokService.startHTTP (ns : NgrokService) (out : ConnectOutcome) :
    NgrokService × Except String Unit :=
  match out with
  | .ok url =>
      ({ ns with forwarderSet := true, publicURL := url, status := "running" }, .ok ())
  | .provErr msg code =>
      let errMsg :=
        if code = "ERR_NGROK_108" then freeAccountMsg
        else "Failed to start tunnel: " ++ msg
      ({ ns with lastError := errMsg, status := "error" }, .error errMsg)
  | .timeout =>
      ({ ns with lastError := httpTimeoutMsg, status := "error", cancelled := true },
       .error httpTimeoutMsg)

/-- `NgrokService.startTCP` -/
def NgrokService.startTCP (ns : NgrokService) (out : ConnectOutcome) :
    NgrokService × Except String Unit :=
  match out with
  | .ok url =>
      ({ ns with forwarderSet := true, publicURL := url, status := "running" }, .ok ())
  | .provErr msg code =>
      let errMsg :=
        if code = "ERR_NGROK_108" then freeAccountMsg
        else "Failed to start TCP tunnel: " ++ msg
      ({ ns with lastError := errMsg, status := "error" }, .error errMsg)
  | .timeout =>
      ({ ns with lastError := tcpTimeoutMsg, status := "error", cancelled := true },
       .error tcpTimeoutMsg)

/-- `NgrokService.startTLS` -/
def NgrokService.startTLS (ns : NgrokService) (out : ConnectOutcome) :
    NgrokService × Except String Unit :=
  match out with
  | .ok url =>
      ({ ns with forwarderSet := true, publicURL := url, status := "running" }, .ok ())
  | .provErr msg code =>
      let errMsg :=
        if code = "ERR_NGROK_108" then freeAccountMsg
        else "Failed to start TLS tunnel: " ++ msg
      ({ ns with lastError := errMsg, status := "error" }, .error errMsg)
  | .timeout =>
      ({ ns with lastError := tlsTimeoutMsg, status := "error", cancelled := true },
       .error tlsTimeoutMsg)

/-- `NgrokService.Start`.  `agentErr?` is the result of `ngrok.NewAgent`
(`some msg` when agent creation failed); `out` is the outcome of the
`agent.Forward` call performed by whichever of the three protocol paths
is selected by the target scheme.  Note that `Start` never sets the
status to `"starting"`: the field keeps its previous value (initially
`"stopped"`) while the connect is in flight. -/
def NgrokService.start (ns : NgrokService) (agentErr? : Option String)
    (out : ConnectOutcome) : NgrokService × Except String Unit :=
  -- ns.ctx, ns.cancel = context.WithCancel(ctx): a fresh, uncancelled context
  let ns := { ns with cancelled := false }
  match agentErr? with
  | some msg =>
      let errMsg := "Failed to create agent: " ++ msg
      ({ ns with lastError := errMsg, status := "error" }, .error errMsg)
  | none =>
      if strHasScheme ns.config.target "tcp://" then ns.startTCP out
      else if strHasScheme ns.config.target "tls://" then ns.startTLS out
      else ns.startHTTP out

/-- `NgrokService.Stop` -/
def NgrokService.stop (ns : NgrokService) : NgrokService × Except String Unit :=
  ({ ns with cancelled := true, status := "stopped", publicURL := "", forwarderSet := false },
   .ok ())

def NgrokService.getPublicURL (ns : NgrokService) : String := ns.publicURL

def NgrokService.getStatus (ns : NgrokService) : String := ns.status

def NgrokService.getError (ns : NgrokService) : String := ns.lastError

/-! ## CloudflareService (the cloudflared adapter file)

`Start` takes the service mutex, rejects if already running/starting,
parses the target, spawns `runTunnel` in a goroutine and returns
immediately.  The `cloudflared` CLI invocation inside `runTunnel` is
opaque; its termination is modelled by a `CfExit` outcome, and the URL
scraped from the redirected stdout by `urlCapture.Write` is modelled by an
explicit write event.  (The `url.Parse` failure branch of `Start` is not
modelled: `Parse` accepts every target string in scope here.) -/

structure CloudflareService where
  config : TunnelConfig
  publicURL : String := ""
  status : String := "stopped"
  /-- `lastError`: a Go `error` value, `none` for `nil`. -/
  lastError : Option String := none
  /-- `cs.cancel` has been invoked on the current tunnel context. -/
  cancelled : Bool := false
  /-- the `runTunnel` goroutine (guarded by `cs.wg`) is still running. -/
  runActive : Bool := false
deriving DecidableEq

/-- `NewCloudflareService` -/
def NewCloudflareService (cfg : TunnelConfig) : CloudflareService :=
  { config := cfg, status := "stopped" }

/-- `CloudflareService.Start`: note there is no connect timeout anywhere in
this function or in `runTunnel` — the adapter stays in `"starting"` until
`runTunnel` makes progress of its own accord. -/
def CloudflareService.start (cs : CloudflareService) :
    CloudflareService × Except String Unit :=
  if cs.status = "running" ∨ cs.status = "starting" then
    (cs, .error "tunnel already running")
  else
    -- cancel any previous context, create a fresh one, flip to "starting",
    -- clear the last error and launch runTunnel under cs.wg
    ({ cs with status := "starting", lastError := none, cancelled := false,
               runActive := true },
     .ok ())

/-- How the `app.RunContext` call inside `runTunnel` terminates. -/
inductive CfExit where
  /-- `RunContext` returned with `ctx.Err() != nil` (cancelled). -/
  | ctxCancelled
  /-- `RunContext` returned `nil` with the context still live. -/
  | appOk
  /-- `RunContext` returned error `msg` with the context still live. -/
  | appErr (msg : String)
  /-- the tunnel goroutine panicked (e.g. `cli.OsExiter` on a nonzero exit
  code) and was caught by the `recover` handler. -/
  | panicked (msg : String)
deriving DecidableEq

/-- End of life of the `runTunnel` goroutine: the function body followed by
its deferred handlers, which run in LIFO order — restore stdout, then the
cleanup `defer` that sets `status = "stopped"` and clears the URL, then the
`recover` handler (which, on a panic, records the error *after* the cleanup
ran), then `wg.Done`.  Consequence: on a plain error return the `"error"`
status written by the body is immediately overwritten with `"stopped"` by
the cleanup `defer`, while on a panic the `"error"` status survives. -/
def CloudflareService.runTunnelExit (cs : CloudflareService) (e : CfExit) :
    CloudflareService :=
  match e with
  | .ctxCancelled =>
      { cs with status := "stopped", publicURL := "", runActive := false }
  | .appOk =>
      { cs with status := "stopped", publicURL := "", runActive := false }
  | .appErr msg =>
      -- body: lastError = err; status = "error"
      -- cleanup defer: status = "stopped"; publicURL = ""
      { cs with lastError := some msg, status := "stopped", publicURL := "",
                runActive := false }
  | .panicked msg =>
      -- cleanup defer: status = "stopped"; publicURL = ""
      -- recover handler: lastError = "tunnel panic: ..."; status = "error"
      { cs with lastError := some ("tunnel panic: " ++ msg), status := "error",
                publicURL := "", runActive := false }

/-- `urlCapture.Write` observing a chunk that matches the
`https://….trycloudflare.com` pattern: records the URL and flips the
status to `"running"`, only if no URL has been captured yet. -/
def CloudflareService.urlWrite (cs : CloudflareService) (url : String) :
    CloudflareService :=
  if cs.publicURL = "" then { cs with publicURL := url, status := "running" }
  else cs

/-- The Cloudflare adapter has no timer: the mere passage of time changes
nothing (there is no `time.After`, deadline or timeout anywhere in its
source). -/
def CloudflareService.timePasses (cs : CloudflareService) (_seconds : Nat) :
    CloudflareService :=
  cs

/-- `CloudflareService.Stop`: no-op when already stopped; otherwise cancels
the tunnel context, signals graceful shutdown, and `wg.Wait()`s until the
`runTunnel` goroutine (if still active) has unwound through its deferred
handlers on the cancelled context. -/
def CloudflareService.stop (cs : CloudflareService) :
    CloudflareService × Except String Unit :=
  if cs.status = "stopped" then (cs, .ok ())
  else
    let cs := { cs with cancelled := true }
    if cs.runActive then (cs.runTunnelExit .ctxCancelled, .ok ())
    else (cs, .ok ())

def CloudflareService.getPublicURL (cs : CloudflareService) : String := cs.publicURL

def CloudflareService.getStatus (cs : CloudflareService) : String := cs.status

def CloudflareService.getError (cs : CloudflareService) : String :=
  match cs.lastError with
  | some e => e
  | none => ""

/-! ## The `TunnelService` interface -/

inductive TunnelService where
  | ngrok (ns : NgrokService)
  | cloudflare (cs : CloudflareService)
deriving DecidableEq

def TunnelService.getStatus : TunnelService → String
  | .ngrok ns => ns.getStatus
  | .cloudflare cs => cs.getStatus

def TunnelService.getPublicURL : TunnelService → String
  | .ngrok ns => ns.getPublicURL
  | .cloudflare cs => cs.getPublicURL

def TunnelService.getError : TunnelService → String
  | .ngrok ns => ns.getError
  | .cloudflare cs => cs.getError

/-- Dynamic dispatch of `service.Start(ctx)`.  For the ngrok adapter the
call blocks on the provider handshake, whose outcome is the supplied
`ConnectOutcome` (with `agentErr?` the `ngrok.NewAgent` result); for the
cloudflare adapter `Start` is local and prompt, so both parameters are
irrelevant to it. -/
def TunnelService.start (svc : TunnelService) (agentErr? : Option String)
    (out : ConnectOutcome) : TunnelService × Except String Unit :=
  match svc with
  | .ngrok ns =>
      let (ns', r) := ns.start agentErr? out
      (.ngrok ns', r)
  | .cloudflare cs =>
      let (cs', r) := cs.start
      (.cloudflare cs', r)

def TunnelService.stop (svc : TunnelService) : TunnelService × Except String Unit :=
  match svc with
  | .ngrok ns =>
      let (ns', r) := ns.stop
      (.ngrok ns', r)
  | .cloudflare cs =>
      let (cs', r) := cs.stop
      (.cloudflare cs', r)

/-! ## Manager (`internal/service/ngrok.go`, second half)

Heap-and-process model of the concurrent parts:

* each call to `Manager.Start` that reaches the launch point allocates one
  adapter instance together with its per-start cancellable context; these
  live in `Manager.heap` in allocation order and are never deallocated
  (Go keeps both the adapter and the context alive as long as the spawned
  goroutine references them);
* the `TunnelState` stored in the registry map refers to its adapter by
  heap index (`inst?`; `none` models a nil `service` field);
* the goroutine spawned by `Start` is a pending `Proc`, identified by the
  same heap index: first it is `connecting` (inside `service.Start`), and
  if that returns nil it moves to `waitingDone` (blocked on `<-ctx.Done()`);
* the goroutine writes to the `*TunnelState` it closed over; that write is
  visible through the registry only while the registry still maps the id
  to the same instance (otherwise a newer `Start` overwrote the entry and
  the write lands on the orphaned struct);
* `StartedAt` carries no lifecycle information and is omitted. -/

structure TunnelState where
  id : String
  status : String
  publicURL : String := ""
  error : String := ""
  /-- heap index of the owning adapter instance; `none` models `service == nil`. -/
  inst? : Option Nat := none
deriving DecidableEq

/-- One adapter instance together with the context `Manager.Start` created
for it (`ctxCancelled` records `cancel()` having been called on it). -/
structure Inst where
  service : TunnelService
  ctxCancelled : Bool := false
deriving DecidableEq

inductive Phase where
  | connecting
  | waitingDone
deriving DecidableEq

/-- A pending goroutine spawned by `Manager.Start`. -/
structure Proc where
  id : String
  instIdx : Nat
  phase : Phase
deriving DecidableEq

structure Manager where
  /-- contents of the persistence collaborator (`config.Manager`). -/
  defs : List (String × TunnelConfig)
  tunnels : List (String × TunnelState) := []
  heap : List Inst := []
  procs : List Proc := []
deriving DecidableEq

/-- `NewManager` over a given definition store. -/
def Manager.init (defs : List (String × TunnelConfig)) : Manager :=
  { defs := defs }

/-- `config.Manager.GetTunnel`: definition lookup; a miss yields the
NotFound error `"tunnel not found: <id>"`. -/
def Manager.getTunnel (m : Manager) (id : String) : Except String TunnelConfig :=
  match lookupA m.defs id with
  | some cfg => .ok cfg
  | none => .error ("tunnel not found: " ++ id)

/-- The `switch tunnelCfg.Type` adapter construction in `Manager.Start`. -/
def newService (cfg : TunnelConfig) : Option TunnelService :=
  if cfg.type = "cloudflare" then some (.cloudflare (NewCloudflareService cfg))
  else if cfg.type = "ngrok" then some (.ngrok (NewNgrokService cfg))
  else none

/-- `Manager.Start` up to (and including) spawning the goroutine.  The
already-running check only rejects when the existing entry's status is
exactly `"running"`. -/
def Manager.start (m : Manager) (id : String) : Manager × Except String Unit :=
  if (match lookupA m.tunnels id with
      | some st => st.status = "running"
      | none => false : Bool) then
    (m, .error "tunnel already running")
  else
    match m.getTunnel id with
    | .error e => (m, .error e)
    | .ok cfg =>
      match newService cfg with
      | none => (m, .error ("unsupported tunnel type: " ++ cfg.type))
      | some svc =>
        let i := m.heap.length
        ({ m with
            tunnels := insertA m.tunnels id
              { id := id, status := "starting", inst? := some i },
            heap := m.heap ++ [{ service := svc }],
            procs := m.procs ++ [{ id := id, instIdx := i, phase := .connecting }] },
         .ok ())

/-- `Manager.Stop`.  When the entry's live service already reports
`"stopped"` it returns success immediately without cancelling anything;
otherwise it cancels the per-start context, calls the adapter's `Stop`
(whose blocking teardown completes before returning), and marks the cached
status `"stopped"`. -/
def Manager.stop (m : Manager) (id : String) : Manager × Except String Unit :=
  match lookupA m.tunnels id with
  | none => (m, .error "tunnel not found")
  | some st =>
    match st.inst? with
    | none =>
        -- service == nil: both the status check and service.Stop are skipped
        ({ m with tunnels := (updateA m.tunnels id
            (fun s => { s with status := "stopped" })) }, .ok ())
    | some i =>
      match m.heap[i]? with
      | none =>
          ({ m with tunnels := (updateA m.tunnels id
              (fun s => { s with status := "stopped" })) }, .ok ())
      | some inst =>
        if inst.service.getStatus = "stopped" then (m, .ok ())
        else
          let (svc', _) := inst.service.stop
          ({ m with
              heap := m.heap.set i { service := svc', ctxCancelled := true },
              tunnels := (updateA m.tunnels id
                (fun s => { s with status := "stopped" })) },
           .ok ())

/-- The snapshot struct assembled by `GetStatus`/`GetAllStatuses`
(ID, live status, live URL, live error; `StartedAt` omitted). -/
structure Snapshot where
  id : String
  status : String
  publicURL : String := ""
  error : String := ""
deriving DecidableEq

/-- The live-query part of `GetStatus`: dereferences `state.service`
without a nil check; `none` models that nil dereference (a panic). -/
def Manager.snapshotOf (m : Manager) (st : TunnelState) : Option Snapshot :=
  match st.inst? with
  | none => none
  | some i =>
    match m.heap[i]? with
    | none => none
    | some inst =>
        some { id := st.id, status := inst.service.getStatus,
               publicURL := inst.service.getPublicURL,
               error := inst.service.getError }

/-- `Manager.GetStatus`: a synthesized Stopped snapshot for unknown ids
(the Go function's error return is constantly nil), otherwise a live
snapshot of the entry's service. -/
def Manager.getStatus (m : Manager) (id : String) : Option Snapshot :=
  match lookupA m.tunnels id with
  | none => some { id := id, status := "stopped" }
  | some st => m.snapshotOf st

/-- The loop body of `GetAllStatuses`: a live snapshot for every entry of
the registry map, `none` as soon as one entry's service dereference would
be a nil dereference. -/
def snapshotsOf (m : Manager) : List (String × TunnelState) → Option (List (String × Snapshot))
  | [] => some []
  | p :: rest =>
    match m.snapshotOf p.2, snapshotsOf m rest with
    | some s, some r => some ((p.1, s) :: r)
    | _, _ => none

/-- `Manager.GetAllStatuses`: a live snapshot for every known id. -/
def Manager.getAllStatuses (m : Manager) : Option (List (String × Snapshot)) :=
  snapshotsOf m m.tunnels

/-! ### Events driving the concurrent parts -/

inductive Event where
  /-- an API caller invokes `Manager.Start(id)`. -/
  | start (id : String)
  /-- an API caller invokes `Manager.Stop(id)`. -/
  | stop (id : String)
  /-- the `service.Start(ctx)` call of the goroutine owning instance
  `instIdx` returns, with the given environment-chosen outcome. -/
  | connectDone (instIdx : Nat) (agentErr? : Option String) (out : ConnectOutcome)
  /-- the goroutine owning instance `instIdx`, blocked on `<-ctx.Done()`,
  observes the cancellation of its context. -/
  | ctxDone (instIdx : Nat)
  /-- `urlCapture` scrapes a trycloudflare URL from the output of the
  cloudflared run owned by instance `instIdx`. -/
  | cfUrl (instIdx : Nat) (url : String)
  /-- the cloudflared run owned by instance `instIdx` terminates. -/
  | cfRunDone (instIdx : Nat) (e : CfExit)
deriving DecidableEq

/-- A goroutine write to the `*TunnelState` it closed over: it reaches the
registry only if the registry still maps the id to this instance. -/
def writeIfOwner (tunnels : List (String × TunnelState)) (id : String) (i : Nat)
    (f : TunnelState → TunnelState) : List (String × TunnelState) :=
  match lookupA tunnels id with
  | some st => if st.inst? = some i then updateA tunnels id f else tunnels
  | none => tunnels

def Manager.step (m : Manager) (ev : Event) : Manager :=
  match ev with
  | .start id => (m.start id).1
  | .stop id => (m.stop id).1
  | .connectDone i agentErr? out =>
    match m.procs.find? (fun p => p.instIdx = i) with
    | some p =>
      if p.phase = .connecting then
        match m.heap[i]? with
        | some inst =>
          let (svc', r) := inst.service.start agentErr? out
          let heap' := m.heap.set i { inst with service := svc' }
          match r with
          | .error e =>
              -- state.Status = "error"; state.Error = err.Error(); return
              { m with heap := heap',
                       tunnels := (writeIfOwner m.tunnels p.id i
                         (fun s => { s with status := "error", error := e })),
                       procs := m.procs.filter (fun q => ¬ q.instIdx = i) }
          | .ok _ =>
              -- state.Status = "running"; state.PublicURL = service.GetPublicURL();
              -- then block on <-ctx.Done()
              { m with heap := heap',
                       tunnels := (writeIfOwner m.tunnels p.id i
                         (fun s => { s with status := "running",
                                            publicURL := svc'.getPublicURL })),
                       procs := (m.procs.map (fun q =>
                         if q.instIdx = i then { q with phase := .waitingDone } else q)) }
        | none => m
      else m
    | none => m
  | .ctxDone i =>
    match m.procs.find? (fun p => p.instIdx = i) with
    | some p =>
      if p.phase = .waitingDone then
        match m.heap[i]? with
        | some inst =>
          if inst.ctxCancelled then
            -- state.Status = "stopped"; goroutine exits
            { m with tunnels := (writeIfOwner m.tunnels p.id i
                       (fun s => { s with status := "stopped" })),
                     procs := m.procs.filter (fun q => ¬ q.instIdx = i) }
          else m
        | none => m
      else m
    | none => m
  | .cfUrl i url =>
    match m.heap[i]? with
    | some inst =>
      match inst.service with
      | .cloudflare cs =>
          if cs.runActive then
            { m with heap := (m.heap.set i
                { inst with service := .cloudflare (cs.urlWrite url) }) }
          else m
      | .ngrok _ => m
    | none => m
  | .cfRunDone i e =>
    match m.heap[i]? with
    | some inst =>
      match inst.service with
      | .cloudflare cs =>
          if cs.runActive then
            { m with heap := (m.heap.set i
                { inst with service := .cloudflare (cs.runTunnelExit e) }) }
          else m
      | .ngrok _ => m
    | none => m

def Manager.run (m : Manager) (evs : List Event) : Manager :=
  evs.foldl Manager.step m

/-! ## Legacy reverse-proxy adapter (the first-generation ngrok service)

The HTTP handler installed by its `Start` after a successful connect:
clone the inbound request onto the target's scheme and host, forward it
with an `http.Client`, answer 502 on upstream failure, and otherwise copy
the upstream headers and status code — but write `[]byte{}` as the body
(the upstream body is never copied, despite the `// Copy body` comment). -/

structure HttpRequest where
  method : String
  scheme : String
  host : String
  path : String
  headers : List (String × String) := []
  body : String := ""
deriving DecidableEq

structure HttpResponse where
  statusCode : Nat
  headers : List (String × String) := []
  body : String := ""
deriving DecidableEq

/-- `r.Clone` followed by the URL rewrite: method, path, headers and body
are preserved; scheme and host are replaced by the target's. -/
def targetRequest (targetScheme targetHost : String) (r : HttpRequest) : HttpRequest :=
  { r with scheme := targetScheme, host := targetHost }

/-- The body `http.Error(w, "Bad Gateway", http.StatusBadGateway)` writes. -/
def badGatewayBody : String := "Bad Gateway\n"

/-- The anonymous `http.HandlerFunc` inside the legacy `NgrokService.Start`.
`client` is the opaque `http.Client.Do` (`none` = connection failure). -/
def proxyHandler (targetScheme targetHost : String)
    (client : HttpRequest → Option HttpResponse) (r : HttpRequest) : HttpResponse :=
  match client (targetRequest targetScheme targetHost r) with
  | none =>
      { statusCode := 502, body := badGatewayBody }
  | some resp =>
      -- copy response headers; copy status code; then w.Write([]byte{})
      { statusCode := resp.statusCode, headers := resp.headers, body := "" }

/-! ## Well-formedness of a live adapter, and concrete fixtures -/

/-- Structural facts every adapter reachable through the lifecycle
operations satisfies: its status is one of the four status strings the
source ever assigns; a stopped adapter has no public URL (both adapters
clear the URL whenever they set `"stopped"`); and a cloudflare adapter
that is starting or running still has its `runTunnel` goroutine alive. -/
def serviceConsistent : TunnelService → Bool
  | .ngrok ns =>
      (ns.status = "stopped" ∨ ns.status = "starting" ∨ ns.status = "running" ∨
        ns.status = "error") ∧
      (ns.status = "stopped" → ns.publicURL = "")
  | .cloudflare cs =>
      (cs.status = "stopped" ∨ cs.status = "starting" ∨ cs.status = "running" ∨
        cs.status = "error") ∧
      (cs.status = "stopped" → cs.publicURL = "") ∧
      (cs.status = "starting" ∨ cs.status = "running" → cs.runActive = true)

/-- A cloudflare adapter stranded in status `"error"` (only its panic
handler produces this). -/
def isCfError : TunnelService → Bool
  | .cloudflare cs => cs.status = "error"
  | .ngrok _ => false

/-- An ngrok-backed tunnel definition used as a concrete scenario. -/
def ngrokCfg : TunnelConfig :=
  { id := "t1", name := "web", type := "ngrok", target := "http://localhost:8080" }

/-- A cloudflare-backed tunnel definition used as a concrete scenario. -/
def cfCfg : TunnelConfig :=
  { id := "t1", name := "web", type := "cloudflare", target := "http://localhost:8080" }

def defsN : List (String × TunnelConfig) := [("t1", ngrokCfg)]

def defsC : List (String × TunnelConfig) := [("t1", cfCfg)]

/-- Every entry of a registry map references an adapter instance that is
actually on the heap (so its `service` field is non-nil and every
dereference of it is safe). -/
def InvOn (tunnels : List (String × TunnelState)) (heap : List Inst) : Prop :=
  ∀ p ∈ tunnels, ∃ i, p.2.inst? = some i ∧ i < heap.length

/-- The registry invariant of a manager. -/
def MgrInv (m : Manager) : Prop := InvOn m.tunnels m.heap

/-! ## Association-list lemmas -/

theorem lookupA_insertA_self {α : Type} (l : List (String × α)) (k : String) (v : α) :
    lookupA (insertA l k v) k = some v := by
  induction l with
  | nil => simp [insertA, lookupA]
  | cons hd tl ih =>
    obtain ⟨k', v'⟩ := hd
    by_cases h : k' = k <;> simp [insertA, lookupA, h, ih]

theorem lookupA_insertA_ne {α : Type} (l : List (String × α)) (k k' : String) (v : α)
    (h : k ≠ k') : lookupA (insertA l k v) k' = lookupA l k' := by
  induction l with
  | nil => simp [insertA, lookupA, h]
  | cons hd tl ih =>
    obtain ⟨k₀, v₀⟩ := hd
    by_cases h₀ : k₀ = k
    · subst h₀
      simp [insertA, lookupA, h]
    · simp [insertA, lookupA, h₀, ih]

theorem lookupA_updateA_self {α : Type} (l : List (String × α)) (k : String) (f : α → α) :
    lookupA (updateA l k f) k = (lookupA l k).map f := by
  induction l with
  | nil => simp [updateA, lookupA]
  | cons hd tl ih =>
    obtain ⟨k', v'⟩ := hd
    by_cases h : k' = k <;> simp [updateA, lookupA, h, ih]

theorem lookupA_updateA_ne {α : Type} (l : List (String × α)) (k k' : String) (f : α → α)
    (h : k ≠ k') : lookupA (updateA l k f) k' = lookupA l k' := by
  induction l with
  | nil => simp [updateA, lookupA]
  | cons hd tl ih =>
    obtain ⟨k₀, v₀⟩ := hd
    by_cases h₀ : k₀ = k
    · subst h₀
      simp [updateA, lookupA, h]
    · simp [updateA, lookupA, h₀, ih]

/-! ## C6: GetStatus on never-started identifiers -/

/-- C6: for every identifier with no registry entry (never started),
`Manager.GetStatus` returns the synthesized snapshot with status
`"stopped"`, empty URL and empty error, and never returns an error (the
Go function's error result is constantly nil; in particular there is no
NotFound for unknown ids). -/
theorem getStatus_unknown_id (m : Manager) (id : String)
    (h : lookupA m.tunnels id = none) :
    m.getStatus id = some { id := id, status := "stopped", publicURL := "", error := "" } := by
  simp [Manager.getStatus, h]

theorem getStatus_unknown_id_witness :
    lookupA (Manager.init defsN).tunnels "ghost" = none ∧
      (Manager.init defsN).getStatus "ghost" =
        some { id := "ghost", status := "stopped", publicURL := "", error := "" } :=
  ⟨rfl, getStatus_unknown_id (Manager.init defsN) "ghost" rfl⟩

/-! ## C7: Start on an unknown identifier -/

/-- C7: when the definition lookup misses for an identifier that has never
been started, `Manager.Start` fails with the NotFound error from
`GetTunnel` and the manager — in particular its registry map — is
completely unchanged: no `RuntimeState` entry is created as a side
effect. -/
theorem start_unknown_id (m : Manager) (id : String)
    (h1 : lookupA m.tunnels id = none) (h2 : lookupA m.defs id = none) :
    m.start id = (m, .error ("tunnel not found: " ++ id)) := by
  simp [Manager.start, Manager.getTunnel, h1, h2]

theorem start_unknown_id_witness :
    (Manager.init defsN).start "unknown-id" =
      ((Manager.init defsN), .error "tunnel not found: unknown-id") :=
  start_unknown_id (Manager.init defsN) "unknown-id" rfl rfl

/-! ## C8: classification of the ERR_NGROK_108 session-limit error -/

/-- C8: whenever the provider connect fails with the concurrent-session
limit code `ERR_NGROK_108`, the ngrok adapter records the rewritten
free-account guidance as its error message — on every protocol path (the
target dispatch picks `startHTTP`, `startTCP` or `startTLS`, all of which
perform the same classification) — and returns that message, not the raw
`"Failed to start … tunnel: …"` rendering of the provider error. -/
theorem session_limit_classified (ns : NgrokService) (msg : String) :
    (ns.start none (.provErr msg "ERR_NGROK_108")).1.lastError = freeAccountMsg ∧
    (ns.start none (.provErr msg "ERR_NGROK_108")).2 = .error freeAccountMsg ∧
    (ns.start none (.provErr msg "ERR_NGROK_108")).1.status = "error" := by
  unfold NgrokService.start
  by_cases h1 : strHasScheme ns.config.target "tcp://" <;>
    by_cases h2 : strHasScheme ns.config.target "tls://" <;>
      simp [h1, h2, NgrokService.startTCP, NgrokService.startTLS, NgrokService.startHTTP]

/-! ## C1: the already-running check only rejects status `"running"` -/

/-- C1 counterexample: two rapid `Start("t1")` calls, the second arriving
while the registry entry is still `"starting"`.  The claim predicts the
second call fails with the already-running error and one adapter instance
remains; in fact the second call succeeds, a second adapter instance is
allocated (neither one cancelled, both connect goroutines in flight), and
the registry entry now points at the second instance. -/
theorem start_while_starting_not_rejected :
    (((Manager.init defsN).start "t1").1.start "t1").2 = .ok () ∧
    (((Manager.init defsN).start "t1").1.start "t1").1.heap.length = 2 ∧
    ((((Manager.init defsN).start "t1").1.start "t1").1.heap.map (·.ctxCancelled))
      = [false, false] ∧
    ((((Manager.init defsN).start "t1").1.start "t1").1.procs.map (·.phase))
      = [.connecting, .connecting] ∧
    (lookupA (((Manager.init defsN).start "t1").1.start "t1").1.tunnels "t1").bind
      (·.inst?) = some 1 := by
  refine ⟨rfl, rfl, rfl, rfl, rfl⟩

/-- C1 amended: `Manager.Start(id)` fails with the already-running error —
leaving the manager, and in particular the owning adapter, untouched —
exactly when the registry entry for `id` has status `"running"`; a `Start`
arriving while the entry is still `"starting"` is accepted, allocates a
fresh adapter instance and overwrites the registry entry with it, so after
two rapid `Start(id)` calls two adapter instances exist (both in flight,
neither cancelled), the registry referencing only the second. -/
theorem start_rejects_only_running :
    (∀ (m : Manager) (id : String) (st : TunnelState),
      lookupA m.tunnels id = some st → st.status = "running" →
      m.start id = (m, .error "tunnel already running")) ∧
    ((((Manager.init defsN).start "t1").1.start "t1").2 = .ok () ∧
     (((Manager.init defsN).start "t1").1.start "t1").1.heap.length = 2 ∧
     (lookupA (((Manager.init defsN).start "t1").1.start "t1").1.tunnels "t1").bind
       (·.inst?) = some 1) := by
  refine ⟨fun m id st h hs => ?_, rfl, rfl, rfl⟩
  simp [Manager.start, h, hs]

theorem start_rejects_only_running_witness :
    (Manager.mk defsN [("t1", { id := "t1", status := "running", inst? := some 0 })]
        [{ service := .ngrok (NewNgrokService ngrokCfg) }] []).start "t1"
      = (Manager.mk defsN [("t1", { id := "t1", status := "running", inst? := some 0 })]
          [{ service := .ngrok (NewNgrokService ngrokCfg) }] [],
         .error "tunnel already running") :=
  start_rejects_only_running.1 _ "t1" _ rfl rfl

/-! ## C2: connect-timeout behaviour of the two adapter variants -/

/-- C2 counterexample: the Cloudflare adapter variant has no connect
timeout.  Started with an underlying connect that never completes, after
the 30-second window (and any amount of time) its status is still
`"starting"` — not `"error"` — and its context has not been cancelled. -/
theorem cloudflare_no_connect_timeout :
    ((((NewCloudflareService cfCfg).start).1.timePasses 30).status = "starting") ∧
    ((((NewCloudflareService cfCfg).start).1.timePasses 30).status ≠ "error") ∧
    ((((NewCloudflareService cfCfg).start).1.timePasses 30).cancelled = false) := by
  refine ⟨rfl, by decide, rfl⟩

/-- C2 amended: the SDK-agent (ngrok) adapter, on every protocol path,
transitions to status `"error"` with a descriptive (non-empty) message and
cancels its cancellable context when the underlying connect does not
complete within the 30-second window; the Cloudflare adapter has no
connect timeout at all — with a connect that never completes it remains in
`"starting"` with its context uncancelled, for any amount of elapsed
time. -/
theorem ngrok_timeout_to_error :
    (∀ (ns : NgrokService),
      (ns.start none .timeout).1.status = "error" ∧
      (ns.start none .timeout).1.lastError ≠ "" ∧
      (ns.start none .timeout).1.cancelled = true) ∧
    (∀ (cfg : TunnelConfig) (n : Nat),
      (((NewCloudflareService cfg).start).1.timePasses n).status = "starting" ∧
      (((NewCloudflareService cfg).start).1.timePasses n).cancelled = false) := by
  constructor
  · intro ns
    unfold NgrokService.start
    by_cases h1 : strHasScheme ns.config.target "tcp://" <;>
      by_cases h2 : strHasScheme ns.config.target "tls://" <;>
        simp [h1, h2, NgrokService.startTCP, NgrokService.startTLS,
          NgrokService.startHTTP, httpTimeoutMsg, tcpTimeoutMsg, tlsTimeoutMsg]
  · intro cfg n
    exact ⟨rfl, rfl⟩

/-! ## C3: Stop arriving while an ngrok Start is still in flight -/

/-- C3 divergence: the ngrok adapter keeps reporting `"stopped"` while its
connect is in flight (its `Start` never sets `"starting"`), so
`Manager.Stop`'s already-stopped short-circuit fires: `Stop` returns
success without cancelling the in-flight context (the per-start context
stays uncancelled and the connect goroutine stays pending), and when the
connect then succeeds the tunnel becomes observable as `"running"` — after
a successful `Stop` — instead of settling to Stopped. -/
theorem stop_while_starting_is_noop :
    ((((Manager.init defsN).start "t1").1.stop "t1").2 = .ok ()) ∧
    (((((Manager.init defsN).start "t1").1.stop "t1").1.heap.map (·.ctxCancelled))
      = [false]) ∧
    (((((Manager.init defsN).start "t1").1.stop "t1").1.procs.map (·.phase))
      = [.connecting]) ∧
    ((((((Manager.init defsN).start "t1").1.stop "t1").1.step
        (.connectDone 0 none (.ok "https://abc.ngrok.app"))).getStatus "t1")
      = some { id := "t1", status := "running",
               publicURL := "https://abc.ngrok.app", error := "" }) := by
  refine ⟨rfl, rfl, rfl, by decide⟩

/-! ## C4: a cloudflare connect failure is not observable as status Error -/

/-- C4 divergence: when the cloudflared run terminates with a connect
error (auth failure, network failure, …) without the context having been
cancelled, the `runTunnel` body records `lastError` and sets status
`"error"`, but the deferred cleanup immediately overwrites the status with
`"stopped"` — so `GetStatus` reports status `"stopped"` (with the non-empty
error message preserved), not the claimed persistent Error state.  (On the
panic path, whose `recover` handler runs after the cleanup `defer`, the
`"error"` status does survive — underlining that the plain error path is a
defer-ordering slip.) -/
theorem cloudflare_connect_error_reports_stopped :
    ((((NewCloudflareService cfCfg).start).1.runTunnelExit
        (.appErr "failed to connect to the edge")).status = "stopped") ∧
    ((((NewCloudflareService cfCfg).start).1.runTunnelExit
        (.appErr "failed to connect to the edge")).getError
      = "failed to connect to the edge") ∧
    ((((NewCloudflareService cfCfg).start).1.runTunnelExit (.panicked "boom")).status
      = "error") ∧
    (((Manager.init defsC).run [.start "t1", .connectDone 0 none (.ok ""),
        .cfRunDone 0 (.appErr "failed to connect to the edge")]).getStatus "t1"
      = some { id := "t1", status := "stopped", publicURL := "",
               error := "failed to connect to the edge" }) := by
  refine ⟨rfl, rfl, rfl, rfl⟩

/-! ## C5: idempotence of Manager.Stop -/

/-- C5 counterexample: a previously started cloudflare tunnel whose run
goroutine terminated by panic sits in service status `"error"`; both
`Stop` calls return success, but after the first Stop `GetStatus` still
reports `"error"`, not the claimed `"stopped"`. -/
theorem stop_after_panic_keeps_error :
    ((((Manager.init defsC).run [.start "t1", .connectDone 0 none (.ok ""),
        .cfRunDone 0 (.panicked "CLI exit with code 1")]).stop "t1").2 = .ok ()) ∧
    (((((Manager.init defsC).run [.start "t1", .connectDone 0 none (.ok ""),
        .cfRunDone 0 (.panicked "CLI exit with code 1")]).stop "t1").1.stop "t1").2
      = .ok ()) ∧
    (((((Manager.init defsC).run [.start "t1", .connectDone 0 none (.ok ""),
        .cfRunDone 0 (.panicked "CLI exit with code 1")]).stop "t1").1.getStatus
        "t1").map (·.status) = some "error") := by
  refine ⟨rfl, rfl, rfl⟩

/-- A non-stopped, consistent adapter that is not a panic-stranded
cloudflare adapter reports status `"stopped"` with an empty URL once its
`Stop` has returned. -/
theorem TunnelService.stop_to_stopped (svc : TunnelService)
    (hc : serviceConsistent svc = true) (he : isCfError svc = false)
    (hs : ¬ svc.getStatus = "stopped") :
    svc.stop.1.getStatus = "stopped" ∧ svc.stop.1.getPublicURL = "" := by
  cases svc with
  | ngrok ns => exact ⟨rfl, rfl⟩
  | cloudflare cs =>
    simp only [serviceConsistent, decide_eq_true_eq] at hc
    simp only [isCfError, decide_eq_false_iff_not] at he
    simp only [TunnelService.getStatus, CloudflareService.getStatus] at hs
    obtain ⟨hval, _hurl, hrun⟩ := hc
    have hsr : cs.status = "starting" ∨ cs.status = "running" := by
      rcases hval with h | h | h | h
      · exact absurd h hs
      · exact Or.inl h
      · exact Or.inr h
      · exact absurd h he
    have hra : cs.runActive = true := hrun hsr
    simp [TunnelService.stop, CloudflareService.stop, hs, hra,
      CloudflareService.runTunnelExit, TunnelService.getStatus,
      TunnelService.getPublicURL, CloudflareService.getStatus,
      CloudflareService.getPublicURL]

/-- C5 amended: for every previously started id (registry entry present,
with its adapter instance on the heap) whose adapter state is consistent,
`Manager.Stop` twice in a row returns success both times and, after the
first `Stop` returns, `GetStatus` reports status `"stopped"` with an empty
public URL — except that a cloudflare adapter stranded in status
`"error"` by its panic handler keeps reporting `"error"` after Stop (the
two Stop calls still both succeed in that case). -/
theorem stop_idempotent (m : Manager) (id : String) (st : TunnelState)
    (i : Nat) (inst : Inst)
    (h1 : lookupA m.tunnels id = some st) (h2 : st.inst? = some i)
    (h3 : m.heap[i]? = some inst)
    (hc : serviceConsistent inst.service = true)
    (he : isCfError inst.service = false) :
    (m.stop id).2 = .ok () ∧
    ((m.stop id).1.stop id).2 = .ok () ∧
    ((m.stop id).1.getStatus id).map (·.status) = some "stopped" ∧
    ((m.stop id).1.getStatus id).map (·.publicURL) = some "" := by
  have hlt : i < m.heap.length := by
    rcases List.getElem?_eq_some.mp h3 with ⟨hlt, -⟩
    exact hlt
  by_cases hs : inst.service.getStatus = "stopped"
  · -- already-stopped short-circuit: Stop leaves the manager unchanged
    have hstop : m.stop id = (m, .ok ()) := by
      simp [Manager.stop, h1, h2, h3, hs]
    have hurl : inst.service.getPublicURL = "" := by
      cases hsvc : inst.service with
      | ngrok ns =>
        rw [hsvc] at hc hs
        simp only [serviceConsistent, decide_eq_true_eq] at hc
        simp only [TunnelService.getStatus, NgrokService.getStatus] at hs
        simpa [TunnelService.getPublicURL, NgrokService.getPublicURL] using hc.2 hs
      | cloudflare cs =>
        rw [hsvc] at hc hs
        simp only [serviceConsistent, decide_eq_true_eq] at hc
        simp only [TunnelService.getStatus, CloudflareService.getStatus] at hs
        simpa [TunnelService.getPublicURL, CloudflareService.getPublicURL] using
          hc.2.1 hs
    refine ⟨by simp [hstop], by simp [hstop], ?_, ?_⟩ <;>
      simp [hstop, Manager.getStatus, Manager.snapshotOf, h1, h2, h3, hs, hurl]
  · -- live service: context cancelled, adapter stopped, status cached
    obtain ⟨hs', hu'⟩ := TunnelService.stop_to_stopped inst.service hc he hs
    have hstop : m.stop id =
        ({ m with
            heap := m.heap.set i { service := inst.service.stop.1, ctxCancelled := true },
            tunnels := (updateA m.tunnels id
              (fun s => { s with status := "stopped" })) }, .ok ()) := by
      simp [Manager.stop, h1, h2, h3, hs]
    have hlook : lookupA (updateA m.tunnels id
        (fun s => { s with status := "stopped" })) id
        = some { st with status := "stopped" } := by
      rw [lookupA_updateA_self, h1]
      rfl
    have hget : (m.heap.set i
        { service := inst.service.stop.1, ctxCancelled := true })[i]?
        = some { service := inst.service.stop.1, ctxCancelled := true } :=
      List.getElem?_set_eq_of_lt _ hlt
    refine ⟨by simp [hstop], ?_, ?_, ?_⟩
    · rw [hstop]
      simp [Manager.stop, hlook, h2, hget, hs']
    · rw [hstop]
      simp [Manager.getStatus, hlook, Manager.snapshotOf, h2, hget, hs']
    · rw [hstop]
      simp [Manager.getStatus, hlook, Manager.snapshotOf, h2, hget, hu']

theorem stop_idempotent_witness :
    ((((Manager.init defsN).run [.start "t1", .connectDone 0 none
        (.ok "https://abc.ngrok.app")]).stop "t1").2 = .ok ()) ∧
    (((((Manager.init defsN).run [.start "t1", .connectDone 0 none
        (.ok "https://abc.ngrok.app")]).stop "t1").1.stop "t1").2 = .ok ()) ∧
    ((((Manager.init defsN).run [.start "t1", .connectDone 0 none
        (.ok "https://abc.ngrok.app")]).stop "t1").1.getStatus "t1").map (·.status)
      = some "stopped" ∧
    ((((Manager.init defsN).run [.start "t1", .connectDone 0 none
        (.ok "https://abc.ngrok.app")]).stop "t1").1.getStatus "t1").map (·.publicURL)
      = some "" :=
  stop_idempotent
    ((Manager.init defsN).run [.start "t1", .connectDone 0 none
      (.ok "https://abc.ngrok.app")]) "t1"
    (TunnelState.mk "t1" "running" "https://abc.ngrok.app" "" (some 0))
    0
    (Inst.mk (.ngrok (NgrokService.mk ngrokCfg "https://abc.ngrok.app" "running" "" false true)) false)
    (by decide) (by decide) (by decide) (by decide) (by decide)

/-! ## C9: the legacy reverse-proxy handler does not relay the body -/

/-- C9 divergence: the legacy reverse-proxy handler forwards the inbound
request with method, path, headers and body preserved (only scheme/host
are rewritten to the target), answers 502 Bad Gateway when the upstream
connection fails, and relays the upstream status and headers — but it
writes `[]byte{}` instead of the upstream body (despite its `// Copy
body` comment), so the relayed body is always empty rather than
unmodified: an upstream body `"hello"` comes back as `""`. -/
theorem proxy_handler_drops_body :
    (targetRequest "http" "localhost:8080"
        { method := "POST", scheme := "https", host := "pub.ngrok.io", path := "/x",
          headers := [("A", "b")], body := "payload" }
      = { method := "POST", scheme := "http", host := "localhost:8080", path := "/x",
          headers := [("A", "b")], body := "payload" }) ∧
    (proxyHandler "http" "localhost:8080"
        (fun _ => some (HttpResponse.mk 203 [("Content-Type", "text/html")] "hello"))
        { method := "POST", scheme := "https", host := "pub.ngrok.io", path := "/x" }
      = { statusCode := 203, headers := [("Content-Type", "text/html")], body := "" }) ∧
    ((proxyHandler "http" "localhost:8080"
        (fun _ => some (HttpResponse.mk 203 [("Content-Type", "text/html")] "hello"))
        { method := "POST", scheme := "https", host := "pub.ngrok.io", path := "/x" }).body
      ≠ "hello") ∧
    (proxyHandler "http" "localhost:8080" (fun _ => none)
        { method := "GET", scheme := "https", host := "pub.ngrok.io", path := "/x" }
      = { statusCode := 502, headers := [], body := badGatewayBody }) := by
  refine ⟨rfl, rfl, by decide, rfl⟩

/-! ## C10: every registry entry owns a heap-resident adapter -/

theorem lookupA_mem {α : Type} {l : List (String × α)} {k : String} {v : α}
    (h : lookupA l k = some v) : (k, v) ∈ l := by
  induction l with
  | nil => simp [lookupA] at h
  | cons hd tl ih =>
    obtain ⟨k₀, v₀⟩ := hd
    by_cases h₀ : k₀ = k
    · subst h₀
      simp [lookupA] at h
      simp [h]
    · simp [lookupA, h₀] at h
      simp [ih h]

theorem mem_insertA {α : Type} {l : List (String × α)} {k : String} {v : α}
    {q : String × α} (h : q ∈ insertA l k v) : q = (k, v) ∨ q ∈ l := by
  induction l with
  | nil => simpa [insertA] using h
  | cons hd tl ih =>
    obtain ⟨k₀, v₀⟩ := hd
    by_cases h₀ : k₀ = k
    · subst h₀
      rcases (by simpa [insertA] using h : q = (k₀, v) ∨ q ∈ tl) with h' | h'
      · exact Or.inl h'
      · exact Or.inr (List.mem_cons_of_mem _ h')
    · rcases (by simpa [insertA, h₀] using h : q = (k₀, v₀) ∨ q ∈ insertA tl k v)
        with h' | h'
      · exact Or.inr (by simp [h'])
      · rcases ih h' with h'' | h''
        · exact Or.inl h''
        · exact Or.inr (List.mem_cons_of_mem _ h'')

theorem mem_updateA {α : Type} {l : List (String × α)} {k : String} {f : α → α}
    {q : String × α} (h : q ∈ updateA l k f) :
    q ∈ l ∨ ∃ w, (q.1, w) ∈ l ∧ q.2 = f w := by
  induction l with
  | nil => simp [updateA] at h
  | cons hd tl ih =>
    obtain ⟨k₀, v₀⟩ := hd
    by_cases h₀ : k₀ = k
    · subst h₀
      rcases (by simpa [updateA] using h : q = (k₀, f v₀) ∨ q ∈ tl) with h' | h'
      · exact Or.inr ⟨v₀, by simp [h'], by simp [h']⟩
      · exact Or.inl (List.mem_cons_of_mem _ h')
    · rcases (by simpa [updateA, h₀] using h : q = (k₀, v₀) ∨ q ∈ updateA tl k f)
        with h' | h'
      · exact Or.inl (by simp [h'])
      · rcases ih h' with h'' | h''
        · exact Or.inl (List.mem_cons_of_mem _ h'')
        · rcases h'' with ⟨w, hw, hq⟩
          exact Or.inr ⟨w, List.mem_cons_of_mem _ hw, hq⟩

theorem InvOn.mono {t : List (String × TunnelState)} {h₁ h₂ : List Inst}
    (hl : h₁.length ≤ h₂.length) (h : InvOn t h₁) : InvOn t h₂ := by
  intro p hp
  rcases h p hp with ⟨i, hi, hlt⟩
  exact ⟨i, hi, lt_of_lt_of_le hlt hl⟩

theorem InvOn.updateA_of {t : List (String × TunnelState)} {hp : List Inst}
    {k : String} (f : TunnelState → TunnelState)
    (hf : ∀ s, (f s).inst? = s.inst?) (h : InvOn t hp) : InvOn (updateA t k f) hp := by
  intro p hmem
  rcases mem_updateA hmem with h' | ⟨w, hw, hq⟩
  · exact h p h'
  · rcases h (p.1, w) hw with ⟨i, hi, hlt⟩
    exact ⟨i, by rw [hq, hf]; exact hi, hlt⟩

theorem InvOn.writeIfOwner_of {t : List (String × TunnelState)} {hp : List Inst}
    {k : String} {i : Nat} (f : TunnelState → TunnelState)
    (hf : ∀ s, (f s).inst? = s.inst?) (h : InvOn t hp) :
    InvOn (writeIfOwner t k i f) hp := by
  unfold writeIfOwner
  cases lookupA t k with
  | none => exact h
  | some st =>
    by_cases ho : st.inst? = some i
    · simpa [ho] using InvOn.updateA_of f hf h
    · simpa [ho] using h

theorem InvOn.insertA_of {t : List (String × TunnelState)} {hp hp' : List Inst}
    {k : String} {st : TunnelState} {j : Nat}
    (h : InvOn t hp) (hj : st.inst? = some j) (hjl : j < hp'.length)
    (hl : hp.length ≤ hp'.length) : InvOn (insertA t k st) hp' := by
  intro p hmem
  rcases mem_insertA hmem with h' | h'
  · exact ⟨j, by rw [h']; exact hj, hjl⟩
  · exact (h.mono hl) p h'

/-- `Manager.Start` preserves the registry invariant: on every error path
the manager is unchanged, and on the launch path it inserts an entry
pointing at the freshly appended heap instance. -/
theorem start_preserves_inv (m : Manager) (id : String) (h : MgrInv m) :
    MgrInv (m.start id).1 := by
  by_cases hb : (match lookupA m.tunnels id with
      | some st => st.status = "running"
      | none => false : Bool) = true
  · simpa only [Manager.start, hb, if_true] using h
  · rw [Bool.not_eq_true] at hb
    cases hdef : m.getTunnel id with
    | error e => simpa only [Manager.start, hb, hdef, Bool.false_eq_true, if_false] using h
    | ok cfg =>
      cases hsvc : newService cfg with
      | none =>
        simpa only [Manager.start, hb, hdef, hsvc, Bool.false_eq_true, if_false] using h
      | some svc =>
        simp only [Manager.start, hb, hdef, hsvc, Bool.false_eq_true, if_false]
        exact h.insertA_of rfl (by simp) (by simp)

theorem stop_preserves_inv (m : Manager) (id : String) (h : MgrInv m) :
    MgrInv (m.stop id).1 := by
  cases hlook : lookupA m.tunnels id with
  | none => simpa only [Manager.stop, hlook] using h
  | some st =>
    cases hinst : st.inst? with
    | none =>
      simp only [Manager.stop, hlook, hinst]
      exact InvOn.updateA_of (fun s => { s with status := "stopped" }) (fun s => rfl) h
    | some i =>
      cases hget : m.heap[i]? with
      | none =>
        simp only [Manager.stop, hlook, hinst, hget]
        exact InvOn.updateA_of (fun s => { s with status := "stopped" }) (fun s => rfl) h
      | some inst =>
        by_cases hs : inst.service.getStatus = "stopped"
        · simpa only [Manager.stop, hlook, hinst, hget, hs, if_true] using h
        · simp only [Manager.stop, hlook, hinst, hget, hs, if_false]
          exact InvOn.mono (by simp)
            (InvOn.updateA_of (fun s => { s with status := "stopped" }) (fun s => rfl) h)

theorem step_preserves_inv (m : Manager) (ev : Event) (h : MgrInv m) :
    MgrInv (m.step ev) := by
  cases ev with
  | start id => exact start_preserves_inv m id h
  | stop id => exact stop_preserves_inv m id h
  | connectDone i agentErr? out =>
    cases hfind : m.procs.find? (fun p => p.instIdx = i) with
    | none => simpa only [Manager.step, hfind] using h
    | some p =>
      by_cases hph : p.phase = Phase.connecting
      · cases hget : m.heap[i]? with
        | none => simpa only [Manager.step, hfind, hph, if_true, hget] using h
        | some inst =>
          cases hsr : inst.service.start agentErr? out with
          | mk svc' r =>
            cases r with
            | error e =>
              simp only [Manager.step, hfind, hph, if_true, hget, hsr]
              exact InvOn.mono (by simp)
                (InvOn.writeIfOwner_of (fun s => { s with status := "error", error := e })
                  (fun s => rfl) h)
            | ok u =>
              simp only [Manager.step, hfind, hph, if_true, hget, hsr]
              exact InvOn.mono (by simp)
                (InvOn.writeIfOwner_of
                  (fun s => { s with status := "running", publicURL := svc'.getPublicURL })
                  (fun s => rfl) h)
      · simpa only [Manager.step, hfind, hph, if_false] using h
  | ctxDone i =>
    cases hfind : m.procs.find? (fun p => p.instIdx = i) with
    | none => simpa only [Manager.step, hfind] using h
    | some p =>
      by_cases hph : p.phase = Phase.waitingDone
      · cases hget : m.heap[i]? with
        | none => simpa only [Manager.step, hfind, hph, if_true, hget] using h
        | some inst =>
          by_cases hcc : inst.ctxCancelled = true
          · simp only [Manager.step, hfind, hph, if_true, hget, hcc]
            exact InvOn.writeIfOwner_of (fun s => { s with status := "stopped" })
              (fun s => rfl) h
          · simp only [Manager.step, hfind, hph, if_true, hget, hcc,
              Bool.false_eq_true, if_false]
            exact h
      · simpa only [Manager.step, hfind, hph, if_false] using h
  | cfUrl i url =>
    cases hget : m.heap[i]? with
    | none => simpa only [Manager.step, hget] using h
    | some inst =>
      cases hsvc : inst.service with
      | ngrok ns => simpa only [Manager.step, hget, hsvc] using h
      | cloudflare cs =>
        by_cases hra : cs.runActive = true
        · simp only [Manager.step, hget, hsvc, hra, if_true]
          exact h.mono (by simp)
        · simp only [Manager.step, hget, hsvc, hra, Bool.false_eq_true, if_false]
          exact h
  | cfRunDone i e =>
    cases hget : m.heap[i]? with
    | none => simpa only [Manager.step, hget] using h
    | some inst =>
      cases hsvc : inst.service with
      | ngrok ns => simpa only [Manager.step, hget, hsvc] using h
      | cloudflare cs =>
        by_cases hra : cs.runActive = true
        · simp only [Manager.step, hget, hsvc, hra, if_true]
          exact h.mono (by simp)
        · simp only [Manager.step, hget, hsvc, hra, Bool.false_eq_true, if_false]
          exact h

theorem run_preserves_inv (m : Manager) (evs : List Event) (h : MgrInv m) :
    MgrInv (m.run evs) := by
  induction evs generalizing m with
  | nil => exact h
  | cons ev rest ih => exact ih (m.step ev) (step_preserves_inv m ev h)

theorem init_inv (defs : List (String × TunnelConfig)) : MgrInv (Manager.init defs) := by
  intro p hp
  simp [Manager.init] at hp

theorem snapshotsOf_isSome (m : Manager) (l : List (String × TunnelState))
    (h : ∀ p ∈ l, ∃ i, p.2.inst? = some i ∧ i < m.heap.length) :
    (snapshotsOf m l).isSome = true := by
  induction l with
  | nil => rfl
  | cons p rest ih =>
    rcases h p (by simp) with ⟨i, hi, hlt⟩
    have hsnap : (m.snapshotOf p.2).isSome = true := by
      simp [Manager.snapshotOf, hi, List.getElem?_eq_getElem hlt]
    rcases Option.isSome_iff_exists.mp hsnap with ⟨s, hs⟩
    rcases Option.isSome_iff_exists.mp
      (ih (fun q hq => h q (List.mem_cons_of_mem _ hq))) with ⟨r, hr⟩
    simp [snapshotsOf, hs, hr]

/-- C10: in every manager state reachable from an initial manager by any
sequence of API calls and goroutine events, each registry entry's
`service` field is non-nil (it references an adapter instance on the
heap) — `Start` constructs the adapter, or fails, before inserting the
entry — and consequently `GetStatus` and `GetAllStatuses`, which
dereference `state.service` without a nil check, never hit a nil
adapter. -/
theorem registry_service_not_nil (defs : List (String × TunnelConfig))
    (evs : List Event) (id : String) (st : TunnelState)
    (h : lookupA ((Manager.init defs).run evs).tunnels id = some st) :
    st.inst?.isSome = true ∧
    (((Manager.init defs).run evs).getStatus id).isSome = true ∧
    (((Manager.init defs).run evs).getAllStatuses).isSome = true := by
  have hinv : MgrInv ((Manager.init defs).run evs) :=
    run_preserves_inv _ evs (init_inv defs)
  rcases hinv (id, st) (lookupA_mem h) with ⟨i, hi, hlt⟩
  have hi' : st.inst? = some i := hi
  refine ⟨by simp [hi'], ?_, ?_⟩
  · simp [Manager.getStatus, h, Manager.snapshotOf, hi', List.getElem?_eq_getElem hlt]
  · exact snapshotsOf_isSome _ _ hinv

theorem registry_service_not_nil_witness :
    lookupA ((Manager.init defsN).run [.start "t1"]).tunnels "t1"
      = some (TunnelState.mk "t1" "starting" "" "" (some 0)) ∧
    ((TunnelState.mk "t1" "starting" "" "" (some 0)).inst?.isSome = true ∧
     (((Manager.init defsN).run [.start "t1"]).getStatus "t1").isSome = true ∧
     (((Manager.init defsN).run [.start "t1"]).getAllStatuses).isSome = true) :=
  ⟨by decide,
   registry_service_not_nil defsN [.start "t1"] "t1"
     (TunnelState.mk "t1" "starting" "" "" (some 0)) (by decide)⟩

end Pont
